import Mathlib

set_option maxRecDepth 8000

/- Shallow embedding of backend/main.py of the OrbitiveXR service: the list
   codec (serialize_list / deserialize_list together with the json fragment
   they exercise), the match scorer (calculate_match_score) and the match
   selector (match_designers), followed by proofs of the specification
   claims.  Python floats are modelled as rationals; Python strings as Lean
   strings (lists of unicode scalar values). -/

/-- Python values as they appear in a designer record's list-valued fields
and as results of json decoding.  The fragment used by this service covers
null, booleans, integers, strings and arrays; json floats and objects never
occur in values produced by serialize_list and are outside the model (their
textual encodings decode to nothing here, see json_loads_chars). -/
inductive PyVal where
  | vnone
  | vbool (b : Bool)
  | vint (n : Int)
  | vstr (s : String)
  | vlist (xs : List PyVal)

/-- Whether a Python value is a list (an ordered sequence). -/
def PyVal.isList : PyVal → Bool
  | .vlist _ => true
  | _ => false

/-- Whitespace stripped by Python str.strip() (ASCII part; exotic unicode
whitespace plays no role in any claim). -/
def isPySpace (c : Char) : Bool :=
  c = ' ' || c = '\t' || c = '\n' || c = '\r' || c = '\x0b' || c = '\x0c'

/-- Python str.strip(): drop leading and trailing whitespace. -/
def pyStrip (cs : List Char) : List Char :=
  ((cs.dropWhile isPySpace).reverse.dropWhile isPySpace).reverse

/-- Whitespace accepted between json tokens (RFC 8259, as in json.loads). -/
def isJsonSpace (c : Char) : Bool :=
  c = ' ' || c = '\t' || c = '\n' || c = '\r'

/-- Skip json token whitespace. -/
def skipWs (cs : List Char) : List Char :=
  cs.dropWhile isJsonSpace

/-- Parse the body of a json string literal (after the opening quote), up to
and including the closing quote; returns the decoded characters and the
remaining input.  Escapes cover the ones serialize_list emits (backslash,
quote, slash); other escape sequences fail. -/
def parseStringBody : List Char → Option (List Char × List Char)
  | [] => none
  | c :: rest =>
    if c = '"' then some ([], rest)
    else if c = '\\' then
      match rest with
      | [] => none
      | e :: rest2 =>
        if e = '"' || e = '\\' || e = '/' then
          (parseStringBody rest2).map (fun p => (e :: p.1, p.2))
        else none
    else (parseStringBody rest).map (fun p => (c :: p.1, p.2))

/-- Does the input start with the given literal characters? -/
def startsWithChars : List Char → List Char → Bool
  | [], _ => true
  | _ :: _, [] => false
  | l :: ls, c :: cs => l = c && startsWithChars ls cs

/-- Expect a literal keyword tail (the head character was already consumed). -/
def expectLit (lit : List Char) (cs : List Char) (v : PyVal) :
    Option (PyVal × List Char) :=
  if startsWithChars lit cs then some (v, cs.drop lit.length) else none

/-- Digits to a natural number. -/
def digitsToNat (ds : List Char) : Nat :=
  ds.foldl (fun n c => n * 10 + (c.toNat - 48)) 0

/-- Parse a json integer (the integer fragment of the number grammar; the
fractional / exponent forms never occur in this service's data and fail at
the trailing-input check of json_loads_chars). -/
def parseNumber (cs : List Char) : Option (PyVal × List Char) :=
  match cs with
  | '-' :: rest =>
    let ds := rest.takeWhile Char.isDigit
    if ds.isEmpty then none
    else some (.vint (-(digitsToNat ds : Int)), rest.dropWhile Char.isDigit)
  | _ =>
    let ds := cs.takeWhile Char.isDigit
    if ds.isEmpty then none
    else some (.vint (digitsToNat ds), cs.dropWhile Char.isDigit)

mutual

/-- Parse one json value.  Fuel-indexed so that the definition is structural
and hence computable by the kernel; json_loads_chars supplies fuel larger
than the input length, which is always sufficient since every recursive call
consumes input. -/
def parseValueF : Nat → List Char → Option (PyVal × List Char)
  | 0, _ => none
  | _ + 1, [] => none
  | fuel + 1, c :: rest =>
    if c = '"' then
      (parseStringBody rest).map (fun p => (PyVal.vstr (String.mk p.1), p.2))
    else if c = '[' then
      match parseItemsF fuel (skipWs rest) with
      | some (vs, r) => some (.vlist vs, r)
      | none => none
    else if c = 'n' then expectLit ['u', 'l', 'l'] rest .vnone
    else if c = 't' then expectLit ['r', 'u', 'e'] rest (.vbool true)
    else if c = 'f' then expectLit ['a', 'l', 's', 'e'] rest (.vbool false)
    else if c.isDigit || c = '-' then parseNumber (c :: rest)
    else none

/-- Parse the items of a json array after the opening bracket (leading
whitespace already skipped), up to and including the closing bracket. -/
def parseItemsF : Nat → List Char → Option (List PyVal × List Char)
  | 0, _ => none
  | fuel + 1, cs =>
    match cs with
    | [] => none
    | c :: rest =>
      if c = ']' then some ([], rest)
      else
        match parseValueF fuel (c :: rest) with
        | some (v, rest1) =>
          (match skipWs rest1 with
           | [] => none
           | c2 :: rest2 =>
             if c2 = ',' then
               match parseItemsF fuel (skipWs rest2) with
               | some (vs, rest3) => some (v :: vs, rest3)
               | none => none
             else if c2 = ']' then some ([v], rest2)
             else none)
        | none => none

end

/-- json.loads on a character list: parse one value, allow trailing
whitespace only. -/
def json_loads_chars (cs : List Char) : Option PyVal :=
  match parseValueF ((skipWs cs).length + 1) (skipWs cs) with
  | some (v, rest) => if (skipWs rest).isEmpty then some v else none
  | none => none

/-- json escape of one character as json.dumps emits it for this service's
data (quote and backslash escaped; other characters verbatim). -/
def escChar (c : Char) : List Char :=
  if c = '"' then ['\\', '"']
  else if c = '\\' then ['\\', '\\']
  else [c]

/-- json escape of a character list. -/
def escChars (cs : List Char) : List Char :=
  cs.flatMap escChar

/-- json.dumps of one string, quotes included. -/
def dumpStr (s : String) : List Char :=
  '"' :: escChars s.data ++ ['"']

/-- The ", "-separated tail of a dumped list (json.dumps default item
separator). -/
def dumpRest : List String → List Char
  | [] => []
  | x :: xs => ',' :: ' ' :: (dumpStr x ++ dumpRest xs)

/-- The items of a dumped list. -/
def dumpItems : List String → List Char
  | [] => []
  | x :: xs => dumpStr x ++ dumpRest xs

/-- json.dumps of a list of strings. -/
def dumpsList (xs : List String) : List Char :=
  '[' :: dumpItems xs ++ [']']

/-- serialize_list from backend/main.py:
json.dumps(items) if items is not None else json.dumps([]). -/
def serialize_list (items : Option (List String)) : String :=
  match items with
  | some xs => String.mk (dumpsList xs)
  | none => String.mk (dumpsList [])

/-- deserialize_list from backend/main.py.  None yields []; a list is
returned unchanged; a string is stripped, an empty strip yields [], else
json decoding is attempted and a failure yields []; every other value
yields []. -/
def deserialize_list : PyVal → PyVal
  | .vnone => .vlist []
  | .vlist xs => .vlist xs
  | .vstr s =>
    let t := pyStrip s.data
    if t.isEmpty then .vlist []
    else
      match json_loads_chars t with
      | some v => v
      | none => .vlist []
  | _ => .vlist []

/-- A campaign record as the scorer reads it.  Fields follow the
CampaignCreate pydantic model (all required), plus the id column used by
the selector's lookup.  Pythonic truthiness of the string fields (used by
the scorer's guards) is the non-emptiness test. -/
structure Campaign where
  id : Int
  budget : Rat
  ambiance : String
  platform_pref : String
  interactivity : Int
  style : String
  timeline : String

/-- A designer record as the scorer reads it (a database row or an
in-memory dict).  Option models an absent key or SQL NULL; the three
list-valued fields may hold either a native list or its json text, which
is why they are PyVal. -/
structure Designer where
  id : Int
  name : String
  rate_tier : Option Rat
  scene_tags : PyVal
  export_formats : PyVal
  game_logic_experience : Option Int
  visual_metadata : PyVal
  availability : Option String
  performance_score : Option Rat

/-- The POST /match request body: campaign_id and threshold (the pydantic
default of the threshold is 60.0; the model takes it explicitly). -/
structure MatchRequest where
  campaign_id : Int
  threshold : Rat

/-- A designer together with its score, as returned by the selector. -/
structure ScoredDesigner where
  designer : Designer
  score : Rat

/-- The data the selector reads: the campaigns and designers tables. -/
structure DB where
  campaigns : List Campaign
  designers : List Designer

/-- The errors the selector can signal: the 404 for a missing campaign, and
the TypeError Python raises when a membership test hits a non-container
(possible only for pathological stored field values). -/
inductive MatchError where
  | notFound (id : Int)
  | typeError

/-- Python string comparison (lexicographic on code points), as used by the
scorer's timeline criterion. -/
def charListLe : List Char → List Char → Bool
  | [], _ => true
  | _ :: _, [] => false
  | a :: as, b :: bs =>
    if a < b then true else if a = b then charListLe as bs else false

/-- Contiguous-run containment on character lists (Python's substring
test for "needle in haystack" on strings). -/
def containsRun (needle : List Char) : List Char → Bool
  | [] => needle.isEmpty
  | c :: tl => startsWithChars needle (c :: tl) || containsRun needle tl

/-- Python "needle in container" for a string needle, as the scorer uses it
on a deserialized field: membership for a list (string elements compare
equal only to equal strings), substring test for a string, TypeError
(modelled as none) for any other container. -/
def pyStrIn (needle : String) : PyVal → Option Bool
  | .vlist ys =>
    some (ys.any (fun y => match y with | .vstr t => needle = t | _ => false))
  | .vstr t => some (containsRun needle.data t.data)
  | _ => none

/-- Budget criterion (weight 20): rate_tier known and within budget. -/
def budget_term (c : Campaign) (d : Designer) : Rat :=
  match d.rate_tier with
  | some r => if r ≤ c.budget then 20 else 0
  | none => 0

/-- One tag-membership criterion: zero when the campaign's tag is falsy
(empty); otherwise the weight exactly when the tag is in the deserialized
field, none when the membership test itself raises. -/
def tag_term (weight : Rat) (needle : String) (field : PyVal) : Option Rat :=
  if needle.isEmpty then some 0
  else
    match pyStrIn needle (deserialize_list field) with
    | some b => some (if b then weight else 0)
    | none => none

/-- Interactivity criterion (weight 15); the campaign side is always
present (required field), the designer side may be absent. -/
def interactivity_term (c : Campaign) (d : Designer) : Rat :=
  match d.game_logic_experience with
  | some g => if c.interactivity ≤ g then 15 else 0
  | none => 0

/-- Timeline criterion (weight 10): both strings truthy and availability
lexicographically at most the timeline. -/
def timeline_term (c : Campaign) (d : Designer) : Rat :=
  match d.availability with
  | some a =>
    if a.isEmpty then 0
    else if c.timeline.isEmpty then 0
    else if charListLe a.data c.timeline.data then 10 else 0
  | none => 0

/-- Performance criterion: awarded only when performance_score is truthy
(present and nonzero); then contributes performance_score * 5, uncapped. -/
def performance_term (d : Designer) : Rat :=
  match d.performance_score with
  | some p => if p = 0 then 0 else p * 5
  | none => 0

/-- calculate_match_score from backend/main.py.  The three membership
criteria can raise (none); the remaining criteria are total.  Terms are
accumulated in the source's order. -/
def calculate_match_score (c : Campaign) (d : Designer) : Option Rat := do
  let ambiance_part ← tag_term 20 c.ambiance d.scene_tags
  let platform_part ← tag_term 15 c.platform_pref d.export_formats
  let style_part ← tag_term 15 c.style d.visual_metadata
  pure (budget_term c d + ambiance_part + platform_part +
    interactivity_term c d + style_part + timeline_term c d +
    performance_term d)

/-- The in-place normalization match_designers applies to each designer row
before scoring: the three list-valued fields are deserialized. -/
def normalize_designer (d : Designer) : Designer :=
  { d with
    scene_tags := deserialize_list d.scene_tags
    export_formats := deserialize_list d.export_formats
    visual_metadata := deserialize_list d.visual_metadata }

/-- The selector's scoring loop over all designers, in table order: each
row is normalized and scored; a raising score aborts the request. -/
def score_candidates (c : Campaign) : List Designer → Option (List ScoredDesigner)
  | [] => some []
  | d :: ds =>
    let d' := normalize_designer d
    match calculate_match_score c d', score_candidates c ds with
    | some q, some rest => some (⟨d', q⟩ :: rest)
    | _, _ => none

/-- Stable descending insertion: the new element goes after every earlier
element with a strictly greater score and before every element with an
equal or smaller one. -/
def insertDesc (x : ScoredDesigner) : List ScoredDesigner → List ScoredDesigner
  | [] => [x]
  | y :: ys => if x.score < y.score then y :: insertDesc x ys else x :: y :: ys

/-- Stable descending sort by score, the observable behavior of Python's
list.sort(key=score, reverse=True) (a stable sort with inverted
comparisons). -/
def sort_by_score_desc : List ScoredDesigner → List ScoredDesigner
  | [] => []
  | x :: xs => insertDesc x (sort_by_score_desc xs)

/-- match_designers from backend/main.py: look the campaign up (first row
with the requested id; 404 when there is none), score every designer,
keep those with score at least the threshold, sort descending. -/
def match_designers (db : DB) (req : MatchRequest) :
    Except MatchError (List ScoredDesigner) :=
  match db.campaigns.find? (fun c => c.id == req.campaign_id) with
  | none => .error (.notFound req.campaign_id)
  | some c =>
    match score_candidates c db.designers with
    | none => .error .typeError
    | some scored =>
      .ok (sort_by_score_desc
        (scored.filter (fun sd => decide (req.threshold ≤ sd.score))))

/- ------------------------------------------------------------------ -/
/- Scorer claims                                                       -/
/- ------------------------------------------------------------------ -/

/-- The campaign of the spec's concrete scenario. -/
def c1_campaign : Campaign :=
  { id := 1, budget := 500, ambiance := "calm", platform_pref := "Quest",
    interactivity := 3, style := "minimalist", timeline := "2024-06-01" }

/-- The designer of the spec's concrete scenario. -/
def c1_designer : Designer :=
  { id := 1, name := "d", rate_tier := some 400,
    scene_tags := .vlist [.vstr "calm", .vstr "vibrant"],
    export_formats := .vlist [.vstr "Quest", .vstr "WebXR"],
    game_logic_experience := some 5,
    visual_metadata := .vlist [.vstr "minimalist"],
    availability := some "2024-05-01",
    performance_score := some 0.8 }

/-- C1: the spec's concrete scenario scores exactly 99, and the same
scenario with rate_tier 600 (unaffordable) scores exactly 79. -/
theorem c1_concrete_scores :
    calculate_match_score c1_campaign c1_designer = some 99 ∧
    calculate_match_score c1_campaign { c1_designer with rate_tier := some 600 } =
      some 79 := by
  constructor <;>
  norm_num [calculate_match_score, c1_campaign, c1_designer, tag_term,
    budget_term, interactivity_term, timeline_term, performance_term,
    deserialize_list, pyStrIn, charListLe,
    show "calm".isEmpty = false from rfl,
    show "Quest".isEmpty = false from rfl,
    show "minimalist".isEmpty = false from rfl,
    show "2024-05-01".isEmpty = false from rfl,
    show "2024-06-01".isEmpty = false from rfl,
    show ('5' < '6') = True from by decide]

/-- C10: a performance_score of exactly 0 and an absent performance_score
are indistinguishable to the scorer: the truthiness guard rejects both, the
performance term is 0 in both cases, and the total scores coincide for
every campaign. -/
theorem c10_zero_performance_equals_absent (c : Campaign) (d : Designer) :
    performance_term { d with performance_score := some 0 } = 0 ∧
    performance_term { d with performance_score := none } = 0 ∧
    calculate_match_score c { d with performance_score := some 0 } =
      calculate_match_score c { d with performance_score := none } := by
  cases d
  simp [performance_term, calculate_match_score, budget_term,
    interactivity_term, timeline_term]

/-- C9: moving rate_tier from within budget to above budget, all else
fixed, moves the budget criterion from exactly 20 to 0 and lowers the
total score by exactly 20 (so it cannot increase). -/
theorem c9_budget_monotonicity (c : Campaign) (d : Designer) (r1 r2 q : Rat)
    (h1 : r1 ≤ c.budget) (h2 : c.budget < r2)
    (h : calculate_match_score c { d with rate_tier := some r1 } = some q) :
    budget_term c { d with rate_tier := some r1 } = 20 ∧
    budget_term c { d with rate_tier := some r2 } = 0 ∧
    calculate_match_score c { d with rate_tier := some r2 } = some (q - 20) := by
  obtain ⟨i, nm, rt, st, ef, gle, vm, av, pf⟩ := d
  refine ⟨by simp [budget_term, h1], by simp [budget_term, not_le.mpr h2], ?_⟩
  simp only [calculate_match_score] at h ⊢
  cases hA : tag_term 20 c.ambiance st with
  | none => simp [hA] at h
  | some a =>
  cases hP : tag_term 15 c.platform_pref ef with
  | none => simp [hA, hP] at h
  | some p =>
  cases hS : tag_term 15 c.style vm with
  | none => simp [hA, hP, hS] at h
  | some s =>
  simp only [hA, hP, hS, Option.bind_eq_bind, Option.some_bind, Option.pure_def,
    Option.some.injEq, budget_term, interactivity_term, timeline_term,
    performance_term] at h ⊢
  simp only [if_pos h1, if_neg (not_le.mpr h2)] at h ⊢
  linarith [h]

/-- C9 witness: the concrete scenario, with rate_tier moved from 400 (within
the 500 budget) to 600 (above it): the budget contribution drops from 20 to
0 and the total drops from 99 to 79. -/
theorem c9_budget_monotonicity_witness :
    budget_term c1_campaign { c1_designer with rate_tier := some 400 } = 20 ∧
    budget_term c1_campaign { c1_designer with rate_tier := some 600 } = 0 ∧
    calculate_match_score c1_campaign { c1_designer with rate_tier := some 600 } =
      some (99 - 20) :=
  c9_budget_monotonicity c1_campaign c1_designer 400 600 99
    (by norm_num [c1_campaign]) (by norm_num [c1_campaign])
    (by norm_num [calculate_match_score, c1_campaign, c1_designer, tag_term,
      budget_term, interactivity_term, timeline_term, performance_term,
      deserialize_list, pyStrIn, charListLe,
      show "calm".isEmpty = false from rfl,
      show "Quest".isEmpty = false from rfl,
      show "minimalist".isEmpty = false from rfl,
      show "2024-05-01".isEmpty = false from rfl,
      show "2024-06-01".isEmpty = false from rfl,
      show ('5' < '6') = True from by decide])

/-- The budget criterion contributes 20 or 0, never less. -/
theorem budget_term_nonneg (c : Campaign) (d : Designer) : 0 ≤ budget_term c d := by
  rcases h : d.rate_tier with _ | r <;> simp [budget_term, h]
  split <;> norm_num

/-- The interactivity criterion contributes 15 or 0, never less. -/
theorem interactivity_term_nonneg (c : Campaign) (d : Designer) :
    0 ≤ interactivity_term c d := by
  rcases h : d.game_logic_experience with _ | g <;>
    simp [interactivity_term, h]
  split <;> norm_num

/-- The timeline criterion contributes 10 or 0, never less. -/
theorem timeline_term_nonneg (c : Campaign) (d : Designer) :
    0 ≤ timeline_term c d := by
  rcases h : d.availability with _ | a <;> simp [timeline_term, h]
  split
  · norm_num
  · split
    · norm_num
    · split <;> norm_num

/-- A tag criterion over a native list field never raises and contributes
its (non-negative) weight or 0. -/
theorem tag_term_vlist (w : Rat) (hw : 0 ≤ w) (n : String) (xs : List PyVal) :
    ∃ a, tag_term w n (.vlist xs) = some a ∧ 0 ≤ a := by
  by_cases hn : n.isEmpty = true
  · exact ⟨0, by simp [tag_term, hn], le_refl 0⟩
  · simp only [tag_term, deserialize_list, pyStrIn, hn, if_false]
    refine ⟨_, rfl, ?_⟩
    split <;> simp [hw]

/-- The campaign of the C2 counterexample: nothing about it matches the
designer below. -/
def c2_campaign : Campaign :=
  { id := 2, budget := 0, ambiance := "calm", platform_pref := "Quest",
    interactivity := 3, style := "minimalist", timeline := "2024-01-01" }

/-- A well-typed designer (per the data model) with a negative
performance_score; every other criterion fails against c2_campaign. -/
def c2_designer : Designer :=
  { id := 2, name := "n", rate_tier := some 100,
    scene_tags := .vlist [], export_formats := .vlist [],
    game_logic_experience := some 0, visual_metadata := .vlist [],
    availability := some "2025-01-01", performance_score := some (-1) }

/-- C2 counterexample: with performance_score = -1 (a real number, as the
claim allows) and every weighted criterion failing, the score is -5 < 0,
so the claimed lower bound of 0 is false. -/
theorem c2_score_negative_counterexample :
    calculate_match_score c2_campaign c2_designer = some (-5) ∧
    ((-5 : Rat) < 0) := by
  constructor
  · norm_num [calculate_match_score, c2_campaign, c2_designer, tag_term,
      budget_term, interactivity_term, timeline_term, performance_term,
      deserialize_list, pyStrIn, charListLe,
      show "calm".isEmpty = false from rfl,
      show "Quest".isEmpty = false from rfl,
      show "minimalist".isEmpty = false from rfl,
      show "2025-01-01".isEmpty = false from rfl,
      show "2024-01-01".isEmpty = false from rfl,
      show ('5' < '4') = False from by decide,
      show ('5' = '4') = False from by decide]
  · norm_num

/-- C2 (amended): for well-typed records whose performance_score, when
present, is non-negative (in particular within its documented [0, 1]
range), the score is defined and non-negative. -/
theorem c2_score_nonneg (c : Campaign) (d : Designer) (t1 t2 t3 : List String)
    (h1 : d.scene_tags = .vlist (t1.map .vstr))
    (h2 : d.export_formats = .vlist (t2.map .vstr))
    (h3 : d.visual_metadata = .vlist (t3.map .vstr))
    (hp : ∀ p, d.performance_score = some p → 0 ≤ p) :
    ∃ q, calculate_match_score c d = some q ∧ 0 ≤ q := by
  have hperf : 0 ≤ performance_term d := by
    rcases h : d.performance_score with _ | p
    · simp [performance_term, h]
    · have := hp p h
      simp only [performance_term, h]
      split
      · norm_num
      · positivity
  obtain ⟨a, hA, ha⟩ := tag_term_vlist 20 (by norm_num) c.ambiance (t1.map .vstr)
  obtain ⟨p, hP, hpp⟩ := tag_term_vlist 15 (by norm_num) c.platform_pref (t2.map .vstr)
  obtain ⟨s, hS, hs⟩ := tag_term_vlist 15 (by norm_num) c.style (t3.map .vstr)
  refine ⟨budget_term c d + a + p + interactivity_term c d + s +
    timeline_term c d + performance_term d, ?_, ?_⟩
  · simp only [calculate_match_score, h1, h2, h3, hA, hP, hS,
      Option.bind_eq_bind, Option.some_bind, Option.pure_def]
  · linarith [budget_term_nonneg c d, interactivity_term_nonneg c d,
      timeline_term_nonneg c d]

/-- C2 witness: the concrete scenario's designer has non-negative
performance_score, so its score is defined and non-negative. -/
theorem c2_score_nonneg_witness :
    ∃ q, calculate_match_score c1_campaign c1_designer = some q ∧ 0 ≤ q :=
  c2_score_nonneg c1_campaign c1_designer ["calm", "vibrant"] ["Quest", "WebXR"]
    ["minimalist"] rfl rfl rfl
    (by intro p hp; simp [c1_designer] at hp; rw [← hp]; norm_num)

/- ------------------------------------------------------------------ -/
/- Codec claims                                                        -/
/- ------------------------------------------------------------------ -/

/-- C3 counterexample: the serialized text "null" decodes successfully, so
normalize returns the decoded value None, which is not a sequence at all
(in Python: deserialize_list("null") is None). -/
theorem c3_nonlist_counterexample :
    deserialize_list (.vstr "null") = .vnone ∧
    (deserialize_list (.vstr "null")).isList = false :=
  ⟨rfl, rfl⟩

/-- C3 (amended): normalize is total (by construction) and behaves by
cases: a native sequence is returned unchanged; absent input, blank text,
undecodable text, and non-sequence non-text shapes yield the empty
sequence; decodable text yields the decoded json value, which need not be
a sequence of strings. -/
theorem c3_normalize_total_cases (x : PyVal) :
    (x = .vnone → deserialize_list x = .vlist []) ∧
    (∀ xs, x = .vlist xs → deserialize_list x = .vlist xs) ∧
    (∀ s, x = .vstr s → (pyStrip s.data).isEmpty = true →
        deserialize_list x = .vlist []) ∧
    (∀ s, x = .vstr s → (pyStrip s.data).isEmpty = false →
        json_loads_chars (pyStrip s.data) = none →
        deserialize_list x = .vlist []) ∧
    (∀ s v, x = .vstr s → (pyStrip s.data).isEmpty = false →
        json_loads_chars (pyStrip s.data) = some v →
        deserialize_list x = v) ∧
    (∀ b, x = .vbool b → deserialize_list x = .vlist []) ∧
    (∀ n, x = .vint n → deserialize_list x = .vlist []) := by
  refine ⟨?_, ?_, ?_, ?_, ?_, ?_, ?_⟩
  · intro h; subst h; rfl
  · intro xs h; subst h; rfl
  · intro s h he; subst h; simp [deserialize_list, he]
  · intro s h he hj; subst h; simp [deserialize_list, he, hj]
  · intro s v h he hj; subst h; simp [deserialize_list, he, hj]
  · intro b h; subst h; rfl
  · intro n h; subst h; rfl

/-- C3 witness: the case analysis evaluated at one input of each shape:
a native list, blank text, undecodable text, a non-string non-list value,
and decodable text encoding a sequence. -/
theorem c3_normalize_total_cases_witness :
    deserialize_list (.vlist [.vstr "calm"]) = .vlist [.vstr "calm"] ∧
    deserialize_list (.vstr "   ") = .vlist [] ∧
    deserialize_list (.vstr "not json") = .vlist [] ∧
    deserialize_list (.vint 7) = .vlist [] ∧
    deserialize_list (.vstr " [\"calm\"] ") = .vlist [.vstr "calm"] :=
  ⟨(c3_normalize_total_cases _).2.1 _ rfl,
   (c3_normalize_total_cases _).2.2.1 _ rfl rfl,
   (c3_normalize_total_cases _).2.2.2.1 _ rfl rfl rfl,
   (c3_normalize_total_cases _).2.2.2.2.2.2 _ rfl,
   (c3_normalize_total_cases _).2.2.2.2.1 _ _ rfl rfl rfl⟩

/-- C4 counterexample: normalize is not idempotent on the serialized text
"null": one application gives the non-sequence None, a second application
turns that into the empty sequence. -/
theorem c4_idempotence_counterexample :
    deserialize_list (deserialize_list (.vstr "null")) ≠
      deserialize_list (.vstr "null") := by
  intro h
  exact PyVal.noConfusion h

/-- C4 (amended): normalize is idempotent on every input whose
normalization is a sequence — that is, on everything except serialized
text that decodes to a non-sequence json value. -/
theorem c4_idempotent_on_sequences (x : PyVal)
    (h : (deserialize_list x).isList = true) :
    deserialize_list (deserialize_list x) = deserialize_list x := by
  cases hd : deserialize_list x with
  | vlist ys => rfl
  | vnone => rw [hd] at h; simp [PyVal.isList] at h
  | vbool b => rw [hd] at h; simp [PyVal.isList] at h
  | vint n => rw [hd] at h; simp [PyVal.isList] at h
  | vstr s => rw [hd] at h; simp [PyVal.isList] at h

/-- C4 witness: idempotence at serialized text that decodes to a
sequence. -/
theorem c4_idempotent_on_sequences_witness :
    (deserialize_list (.vstr " [\"a\", \"b\"] ")).isList = true ∧
    deserialize_list (deserialize_list (.vstr " [\"a\", \"b\"] ")) =
      deserialize_list (.vstr " [\"a\", \"b\"] ") :=
  ⟨rfl, c4_idempotent_on_sequences _ rfl⟩

/- ------------------------------------------------------------------ -/
/- Round-trip through the serialized representation (C5)               -/
/- ------------------------------------------------------------------ -/

theorem escChars_cons (c : Char) (cs : List Char) :
    escChars (c :: cs) = escChar c ++ escChars cs := by
  simp [escChars]

theorem parseStringBody_quote (rest : List Char) :
    parseStringBody ('"' :: rest) = some ([], rest) := by
  rw [parseStringBody.eq_def]; simp

theorem parseStringBody_escape (e : Char) (rest : List Char)
    (he : (e = '"' || e = '\\' || e = '/') = true) :
    parseStringBody ('\\' :: e :: rest) =
      (parseStringBody rest).map (fun p => (e :: p.1, p.2)) := by
  rw [parseStringBody.eq_def]; simp [he]

theorem parseStringBody_other (c : Char) (rest : List Char)
    (h1 : ¬c = '"') (h2 : ¬c = '\\') :
    parseStringBody (c :: rest) =
      (parseStringBody rest).map (fun p => (c :: p.1, p.2)) := by
  rw [parseStringBody.eq_def]; simp [h1, h2]

theorem parseStringBody_esc (cs rest : List Char) :
    parseStringBody (escChars cs ++ '"' :: rest) = some (cs, rest) := by
  induction cs with
  | nil =>
    rw [show escChars [] = [] from rfl, List.nil_append, parseStringBody_quote]
  | cons c cs ih =>
    rw [escChars_cons]
    by_cases h1 : c = '"'
    · subst h1
      rw [show escChar '"' = ['\\', '"'] from rfl]
      simp only [List.cons_append, List.nil_append]
      rw [parseStringBody_escape _ _ (by decide), ih]
      rfl
    · by_cases h2 : c = '\\'
      · subst h2
        rw [show escChar '\\' = ['\\', '\\'] from rfl]
        simp only [List.cons_append, List.nil_append]
        rw [parseStringBody_escape _ _ (by decide), ih]
        rfl
      · rw [show escChar c = [c] from by simp [escChar, h1, h2]]
        simp only [List.cons_append, List.nil_append]
        rw [parseStringBody_other c _ h1 h2, ih]
        rfl

theorem dumpStr_append (x : String) (A : List Char) :
    dumpStr x ++ A = '"' :: (escChars x.data ++ ('"' :: A)) := by
  simp [dumpStr]

theorem parseValueF_dumpStr (f : Nat) (x : String) (rest : List Char) :
    parseValueF (f + 1) (dumpStr x ++ rest) = some (.vstr x, rest) := by
  rw [dumpStr_append, parseValueF.eq_def]
  simp [parseStringBody_esc, show String.mk x.data = x from rfl]

theorem skipWs_not_space (c : Char) (cs : List Char)
    (h : isJsonSpace c = false) : skipWs (c :: cs) = c :: cs := by
  simp [skipWs, List.dropWhile, h]

theorem skipWs_space (c : Char) (cs : List Char)
    (h : isJsonSpace c = true) : skipWs (c :: cs) = skipWs cs := by
  simp [skipWs, List.dropWhile, h]

theorem parseItemsF_dump (xs : List String) :
    ∀ (x : String) (rest : List Char) (fuel : Nat), xs.length + 2 ≤ fuel →
    parseItemsF fuel (dumpStr x ++ (dumpRest xs ++ (']' :: rest))) =
      some (.vstr x :: xs.map .vstr, rest) := by
  induction xs with
  | nil =>
    intro x rest fuel hf
    obtain ⟨f, rfl⟩ : ∃ f, fuel = f + 1 := ⟨fuel - 1, by omega⟩
    obtain ⟨g, rfl⟩ : ∃ g, f = g + 1 := ⟨f - 1, by omega⟩
    rw [show dumpRest [] = [] from rfl, List.nil_append, dumpStr_append,
      parseItemsF.eq_def]
    simp only [show ('\"' = ']') = False from by decide, if_false]
    rw [← dumpStr_append, parseValueF_dumpStr]
    simp [skipWs_not_space, isJsonSpace]
  | cons y ys ih =>
    intro x rest fuel hf
    obtain ⟨f, rfl⟩ : ∃ f, fuel = f + 1 := ⟨fuel - 1, by omega⟩
    obtain ⟨g, rfl⟩ : ∃ g, f = g + 1 := ⟨f - 1, by omega⟩
    rw [show dumpRest (y :: ys) = ',' :: ' ' :: (dumpStr y ++ dumpRest ys) from rfl]
    rw [dumpStr_append, parseItemsF.eq_def]
    simp only [show ('\"' = ']') = False from by decide, if_false]
    rw [← dumpStr_append, parseValueF_dumpStr]
    simp only [List.cons_append, List.append_assoc]
    have hT : skipWs (dumpStr y ++ (dumpRest ys ++ (']' :: rest))) =
        dumpStr y ++ (dumpRest ys ++ (']' :: rest)) := by
      rw [dumpStr_append]
      exact skipWs_not_space _ _ (by decide)
    have hlen : ys.length + 2 ≤ g + 1 := by
      simp only [List.length_cons] at hf
      omega
    simp [skipWs_not_space, skipWs_space, isJsonSpace, hT, ih y rest (g + 1) hlen]

theorem dumpStr_length (x : String) : 2 ≤ (dumpStr x).length := by
  simp [dumpStr]

theorem dumpRest_length (xs : List String) : xs.length ≤ (dumpRest xs).length := by
  induction xs with
  | nil => simp [dumpRest]
  | cons y ys ih => simp [dumpRest]; omega

theorem dumpsList_length (xs : List String) :
    xs.length + 2 ≤ (dumpsList xs).length := by
  cases xs with
  | nil => simp [dumpsList, dumpItems]
  | cons y ys =>
    have h1 := dumpStr_length y
    have h2 := dumpRest_length ys
    simp [dumpsList, dumpItems]
    omega

theorem skipWs_dumpsList (xs : List String) :
    skipWs (dumpsList xs) = dumpsList xs := by
  rw [dumpsList]
  exact skipWs_not_space _ _ (by decide)

theorem json_loads_dumps (xs : List String) :
    json_loads_chars (dumpsList xs) = some (.vlist (xs.map .vstr)) := by
  rw [json_loads_chars, skipWs_dumpsList]
  obtain ⟨L, hL⟩ : ∃ L, (dumpsList xs).length + 1 = L + 1 + 1 :=
    ⟨(dumpsList xs).length - 1, by have := dumpsList_length xs; omega⟩
  rw [hL, dumpsList, parseValueF.eq_def]
  simp only [show ('[' = '\"') = False from by decide,
    show ('[' = '[') = True from by decide, if_false, if_true, List.cons_append]
  cases xs with
  | nil =>
    rw [show dumpItems ([] : List String) = [] from rfl, List.nil_append,
      skipWs_not_space _ _ (by decide), parseItemsF.eq_def]
    simp [skipWs]
  | cons y ys =>
    rw [show dumpItems (y :: ys) = dumpStr y ++ dumpRest ys from rfl,
      List.append_assoc]
    have hT : skipWs (dumpStr y ++ (dumpRest ys ++ [']'])) =
        dumpStr y ++ (dumpRest ys ++ [']']) := by
      rw [dumpStr_append]
      exact skipWs_not_space _ _ (by decide)
    rw [hT]
    have hlen : ys.length + 2 ≤ L + 1 := by
      have := dumpsList_length (y :: ys)
      simp only [List.length_cons] at this
      omega
    rw [show (dumpRest ys ++ [']'] : List Char) = dumpRest ys ++ (']' :: []) from rfl,
      parseItemsF_dump ys y [] (L + 1) hlen]
    simp [skipWs]

theorem dropWhile_cons_false (p : Char → Bool) (c : Char) (l : List Char)
    (h : p c = false) : List.dropWhile p (c :: l) = c :: l := by
  simp [List.dropWhile_cons, h]

theorem pyStrip_dumpsList (xs : List String) :
    pyStrip (dumpsList xs) = dumpsList xs := by
  rw [pyStrip, dumpsList]
  simp only [List.cons_append]
  rw [dropWhile_cons_false isPySpace '[' _ (by decide)]
  rw [show ('[' :: (dumpItems xs ++ [']']) : List Char).reverse =
      ']' :: ((dumpItems xs).reverse ++ ['[']) from by simp]
  rw [dropWhile_cons_false isPySpace ']' _ (by decide)]
  simp

theorem deserialize_serialize (xs : List String) :
    deserialize_list (.vstr (serialize_list (some xs))) =
      .vlist (xs.map .vstr) := by
  rw [deserialize_list, serialize_list]
  rw [show (String.mk (dumpsList xs)).data = dumpsList xs from rfl]
  rw [pyStrip_dumpsList]
  rw [show (dumpsList xs).isEmpty = false from by rw [dumpsList]; rfl]
  rw [json_loads_dumps]
  simp

theorem tag_term_deser_congr (w : Rat) (n : String) {f g : PyVal}
    (h : deserialize_list f = deserialize_list g) :
    tag_term w n f = tag_term w n g := by
  simp only [tag_term, h]

/-- C5: a designer whose three list-valued fields are stored as their
serialized-text encodings normalizes to the same sequences and scores
identically, against every campaign, as the designer with the native
lists. -/
theorem c5_serialized_roundtrip_scoring (c : Campaign) (i : Int) (nm : String)
    (rt : Option Rat) (gle : Option Int) (av : Option String) (pf : Option Rat)
    (t1 t2 t3 : List String) :
    deserialize_list (.vstr (serialize_list (some t1))) =
      deserialize_list (.vlist (t1.map .vstr)) ∧
    deserialize_list (.vstr (serialize_list (some t2))) =
      deserialize_list (.vlist (t2.map .vstr)) ∧
    deserialize_list (.vstr (serialize_list (some t3))) =
      deserialize_list (.vlist (t3.map .vstr)) ∧
    calculate_match_score c
      ⟨i, nm, rt, .vstr (serialize_list (some t1)), .vstr (serialize_list (some t2)),
        gle, .vstr (serialize_list (some t3)), av, pf⟩ =
    calculate_match_score c
      ⟨i, nm, rt, .vlist (t1.map .vstr), .vlist (t2.map .vstr), gle,
        .vlist (t3.map .vstr), av, pf⟩ := by
  have e1 : deserialize_list (.vstr (serialize_list (some t1))) =
      deserialize_list (.vlist (t1.map .vstr)) := by
    rw [deserialize_serialize]; rfl
  have e2 : deserialize_list (.vstr (serialize_list (some t2))) =
      deserialize_list (.vlist (t2.map .vstr)) := by
    rw [deserialize_serialize]; rfl
  have e3 : deserialize_list (.vstr (serialize_list (some t3))) =
      deserialize_list (.vlist (t3.map .vstr)) := by
    rw [deserialize_serialize]; rfl
  refine ⟨e1, e2, e3, ?_⟩
  simp only [calculate_match_score]
  rw [tag_term_deser_congr 20 c.ambiance e1,
    tag_term_deser_congr 15 c.platform_pref e2,
    tag_term_deser_congr 15 c.style e3]
  simp only [budget_term, interactivity_term, timeline_term, performance_term]

/- ------------------------------------------------------------------ -/
/- Selector claims                                                     -/
/- ------------------------------------------------------------------ -/

/-- Membership through stable descending insertion. -/
theorem mem_insertDesc (x a : ScoredDesigner) (l : List ScoredDesigner) :
    a ∈ insertDesc x l ↔ a = x ∨ a ∈ l := by
  induction l with
  | nil => simp [insertDesc]
  | cons y ys ih =>
    simp only [insertDesc]
    split
    · simp only [List.mem_cons, ih]
      tauto
    · simp only [List.mem_cons]

/-- The stable descending sort is a permutation: membership is preserved. -/
theorem mem_sort_by_score_desc (a : ScoredDesigner) (l : List ScoredDesigner) :
    a ∈ sort_by_score_desc l ↔ a ∈ l := by
  induction l with
  | nil => simp [sort_by_score_desc]
  | cons x xs ih =>
    simp only [sort_by_score_desc, mem_insertDesc, ih, List.mem_cons]

/-- Stable descending insertion preserves descending order. -/
theorem pairwise_insertDesc (x : ScoredDesigner) (l : List ScoredDesigner)
    (h : l.Pairwise (fun u v => v.score ≤ u.score)) :
    (insertDesc x l).Pairwise (fun u v => v.score ≤ u.score) := by
  induction l with
  | nil => simp [insertDesc]
  | cons y ys ih =>
    rcases List.pairwise_cons.mp h with ⟨hy, hys⟩
    simp only [insertDesc]
    split
    · rename_i hlt
      refine List.pairwise_cons.mpr ⟨?_, ih hys⟩
      intro b hb
      rcases (mem_insertDesc x b ys).mp hb with rfl | hbys
      · exact le_of_lt hlt
      · exact hy b hbys
    · rename_i hge
      refine List.pairwise_cons.mpr ⟨?_, h⟩
      intro b hb
      rcases List.mem_cons.mp hb with rfl | hbys
      · exact not_lt.mp hge
      · exact le_trans (hy b hbys) (not_lt.mp hge)

/-- The sorted output is descending in score. -/
theorem sorted_sort_by_score_desc (l : List ScoredDesigner) :
    (sort_by_score_desc l).Pairwise (fun u v => v.score ≤ u.score) := by
  induction l with
  | nil => simp [sort_by_score_desc]
  | cons x xs ih => exact pairwise_insertDesc x _ ih

/-- Inserting an element of score q puts it in front of every other
element of score q (stability, insertion step, equal-score case). -/
theorem filter_insertDesc_eq (x : ScoredDesigner) (l : List ScoredDesigner)
    (q : Rat) (hx : x.score = q) :
    (insertDesc x l).filter (fun sd => decide (sd.score = q)) =
      x :: l.filter (fun sd => decide (sd.score = q)) := by
  induction l with
  | nil => simp [insertDesc, List.filter, hx]
  | cons y ys ih =>
    simp only [insertDesc]
    split
    · rename_i hlt
      have hy : ¬(y.score = q) := by
        rw [← hx]
        exact ne_of_gt hlt
      simp [List.filter_cons, hy, ih]
    · simp [List.filter_cons, hx]

/-- Inserting an element of another score leaves the score-q elements in
their relative order (stability, insertion step, other-score case). -/
theorem filter_insertDesc_ne (x : ScoredDesigner) (l : List ScoredDesigner)
    (q : Rat) (hx : ¬x.score = q) :
    (insertDesc x l).filter (fun sd => decide (sd.score = q)) =
      l.filter (fun sd => decide (sd.score = q)) := by
  induction l with
  | nil => simp [insertDesc, List.filter, hx]
  | cons y ys ih =>
    simp only [insertDesc]
    split
    · simp [List.filter_cons, ih]
    · simp [List.filter_cons, hx]

/-- Stability of the sort: for every score q, the elements of score q
appear in the output in their original order. -/
theorem filter_sort_by_score_desc (l : List ScoredDesigner) (q : Rat) :
    (sort_by_score_desc l).filter (fun sd => decide (sd.score = q)) =
      l.filter (fun sd => decide (sd.score = q)) := by
  induction l with
  | nil => simp [sort_by_score_desc]
  | cons x xs ih =>
    simp only [sort_by_score_desc]
    by_cases hx : x.score = q
    · rw [filter_insertDesc_eq x _ q hx, ih, List.filter_cons]
      simp [hx]
    · rw [filter_insertDesc_ne x _ q hx, ih, List.filter_cons]
      simp [hx]

/-- C6: the selector signals NotFound exactly when the campaign lookup
fails; when the campaign exists, zero designers or all scores below the
threshold give the empty list, not an error. -/
theorem c6_notfound_iff_and_empty (db : DB) (req : MatchRequest) :
    (match_designers db req = .error (.notFound req.campaign_id) ↔
      db.campaigns.find? (fun c => c.id == req.campaign_id) = none) ∧
    (∀ c, db.campaigns.find? (fun c => c.id == req.campaign_id) = some c →
      (db.designers = [] → match_designers db req = .ok []) ∧
      (∀ scored, score_candidates c db.designers = some scored →
        (∀ sd ∈ scored, sd.score < req.threshold) →
        match_designers db req = .ok [])) := by
  cases hf : db.campaigns.find? (fun c => c.id == req.campaign_id) with
  | none =>
    refine ⟨by simp [match_designers, hf], ?_⟩
    intro c hc
    simp [hf] at hc
  | some c =>
    constructor
    · rw [match_designers, hf]
      cases hs : score_candidates c db.designers with
      | none => simp [hs]
      | some scored => simp [hs]
    · intro c' hc'
      rw [Option.some.injEq] at hc'
      subst hc'
      constructor
      · intro hd
        simp [match_designers, hf, hd, score_candidates, sort_by_score_desc]
      · intro scored hs hbelow
        have hfilter : scored.filter (fun sd => decide (req.threshold ≤ sd.score)) = [] := by
          rw [List.filter_eq_nil_iff]
          intro sd hsd
          simp only [decide_eq_true_eq]
          exact not_le.mpr (hbelow sd hsd)
        simp [match_designers, hf, hs, hfilter, sort_by_score_desc]

/-- C7: a scored candidate is in the selector result exactly when its
score is at least the threshold (inclusive boundary). -/
theorem c7_threshold_inclusive (db : DB) (req : MatchRequest) (c : Campaign)
    (scored res : List ScoredDesigner)
    (hc : db.campaigns.find? (fun x => x.id == req.campaign_id) = some c)
    (hs : score_candidates c db.designers = some scored)
    (hr : match_designers db req = .ok res) (sd : ScoredDesigner) :
    sd ∈ res ↔ (sd ∈ scored ∧ req.threshold ≤ sd.score) := by
  simp only [match_designers, hc, hs] at hr
  rw [Except.ok.injEq] at hr
  subst hr
  rw [mem_sort_by_score_desc, List.mem_filter]
  simp

/-- C8: the selector result is sorted by score descending, and the
elements of any fixed score appear in their original candidate order
(the sort is stable). -/
theorem c8_sorted_descending_stable (db : DB) (req : MatchRequest) (c : Campaign)
    (scored res : List ScoredDesigner)
    (hc : db.campaigns.find? (fun x => x.id == req.campaign_id) = some c)
    (hs : score_candidates c db.designers = some scored)
    (hr : match_designers db req = .ok res) :
    res.Pairwise (fun u v => v.score ≤ u.score) ∧
    (∀ q, res.filter (fun sd => decide (sd.score = q)) =
      (scored.filter (fun sd => decide (req.threshold ≤ sd.score))).filter
        (fun sd => decide (sd.score = q))) := by
  simp only [match_designers, hc, hs] at hr
  rw [Except.ok.injEq] at hr
  subst hr
  exact ⟨sorted_sort_by_score_desc _, fun q => filter_sort_by_score_desc _ q⟩

/-- A second designer identical to the concrete scenario designer (ties at
score 99). -/
def w_tie : Designer := { c1_designer with id := 3, name := "t" }
/-- A third designer, unaffordable, scoring 79. -/
def w_low : Designer := { c1_designer with id := 2, name := "e", rate_tier := some 600 }
/-- A selector database: the concrete campaign and three designers. -/
def w_db : DB := ⟨[c1_campaign], [c1_designer, w_tie, w_low]⟩
/-- A match request at threshold 99 (the top score exactly). -/
def w_req : MatchRequest := ⟨1, 99⟩
/-- The scored candidates of w_db against the concrete campaign. -/
def w_scored : List ScoredDesigner :=
  [⟨normalize_designer c1_designer, 99⟩, ⟨normalize_designer w_tie, 99⟩,
   ⟨normalize_designer w_low, 79⟩]
/-- The expected selector result: the two designers at 99, candidate
order preserved. -/
def w_res : List ScoredDesigner :=
  [⟨normalize_designer c1_designer, 99⟩, ⟨normalize_designer w_tie, 99⟩]

/-- Evaluation: scoring the three designers gives 99, 99, 79. -/
theorem w_scored_eval :
    score_candidates c1_campaign w_db.designers = some w_scored := by
  norm_num [score_candidates, w_db, w_scored, w_tie, w_low, normalize_designer,
    calculate_match_score, c1_campaign, c1_designer, tag_term, budget_term,
    interactivity_term, timeline_term, performance_term, deserialize_list,
    pyStrIn, charListLe,
    show "calm".isEmpty = false from rfl,
    show "Quest".isEmpty = false from rfl,
    show "minimalist".isEmpty = false from rfl,
    show "2024-05-01".isEmpty = false from rfl,
    show "2024-06-01".isEmpty = false from rfl,
    show ('5' < '6') = True from by decide]

/-- Evaluation: the selector keeps the two 99-scores, in order. -/
theorem w_match_eval : match_designers w_db w_req = .ok w_res := by
  simp only [match_designers, show w_db.campaigns.find?
      (fun c => c.id == w_req.campaign_id) = some c1_campaign from rfl,
    w_scored_eval]
  rw [show w_scored.filter (fun sd => decide (w_req.threshold ≤ sd.score)) =
      [⟨normalize_designer c1_designer, 99⟩, ⟨normalize_designer w_tie, 99⟩] from by
    norm_num [w_scored, w_req, List.filter]]
  rw [show sort_by_score_desc
      [⟨normalize_designer c1_designer, 99⟩, ⟨normalize_designer w_tie, 99⟩] =
      w_res from by norm_num [sort_by_score_desc, insertDesc, w_res]]

/-- C6 witness: a missing campaign id gives NotFound; an existing campaign
with no designers, or with one designer scoring 79 under threshold 100,
gives the empty list. -/
theorem c6_notfound_iff_and_empty_witness :
    match_designers w_db ⟨2, 60⟩ = .error (.notFound 2) ∧
    match_designers ⟨[c1_campaign], []⟩ ⟨1, 60⟩ = .ok [] ∧
    match_designers ⟨[c1_campaign], [w_low]⟩ ⟨1, 100⟩ = .ok [] :=
  ⟨(c6_notfound_iff_and_empty w_db ⟨2, 60⟩).1.mpr rfl,
   ((c6_notfound_iff_and_empty ⟨[c1_campaign], []⟩ ⟨1, 60⟩).2 c1_campaign rfl).1 rfl,
   ((c6_notfound_iff_and_empty ⟨[c1_campaign], [w_low]⟩ ⟨1, 100⟩).2 c1_campaign rfl).2
     [⟨normalize_designer w_low, 79⟩]
     (by norm_num [score_candidates, w_low, normalize_designer,
        calculate_match_score, c1_campaign, c1_designer, tag_term, budget_term,
        interactivity_term, timeline_term, performance_term, deserialize_list,
        pyStrIn, charListLe,
        show "calm".isEmpty = false from rfl,
        show "Quest".isEmpty = false from rfl,
        show "minimalist".isEmpty = false from rfl,
        show "2024-05-01".isEmpty = false from rfl,
        show "2024-06-01".isEmpty = false from rfl,
        show ('5' < '6') = True from by decide])
     (by intro sd hsd
         simp only [List.mem_singleton] at hsd
         subst hsd
         norm_num)⟩

/-- C7 witness: a designer scoring exactly the threshold 99 is included. -/
theorem c7_threshold_inclusive_witness :
    (⟨normalize_designer c1_designer, 99⟩ : ScoredDesigner) ∈ w_res ↔
      ((⟨normalize_designer c1_designer, 99⟩ : ScoredDesigner) ∈ w_scored ∧
        w_req.threshold ≤ (99 : Rat)) :=
  c7_threshold_inclusive w_db w_req c1_campaign w_scored w_res rfl w_scored_eval w_match_eval
    ⟨normalize_designer c1_designer, 99⟩

/-- C8 witness: with two designers tied at 99, the result is descending
and keeps them in candidate order. -/
theorem c8_sorted_descending_stable_witness :
    w_res.Pairwise (fun u v => v.score ≤ u.score) ∧
    w_res.filter (fun sd => decide (sd.score = 99)) =
      (w_scored.filter (fun sd => decide (w_req.threshold ≤ sd.score))).filter
        (fun sd => decide (sd.score = 99)) :=
  ⟨(c8_sorted_descending_stable w_db w_req c1_campaign w_scored w_res rfl w_scored_eval
      w_match_eval).1,
   (c8_sorted_descending_stable w_db w_req c1_campaign w_scored w_res rfl w_scored_eval
      w_match_eval).2 99⟩
